import Mathlib

/-!
Shallow embedding of the AutoStream agent core (src/agent/intent.py,
src/agent/rag.py, src/agent/graph.py, src/lead_capture.py) and proofs of the
specification claims.

Conventions of the embedding:
* Python strings are Lean `String`s; matching is done on ASCII text, which is
  the alphabet of every pattern and message in the source.
* Python `Optional[str]` fields become `Option String`; Python string
  truthiness (`if s:`) is modelled explicitly where the source relies on it.
* Relevance scores are embedded as exact rationals `ℚ`; every constant in the
  source (0.8, 0.3, 0.5, 0.2, 1.0) is a decimal literal that `ℚ` represents
  exactly, so the clamped sums computed by the source are reproduced exactly.
* The lead-capture callback (src/lead_capture.py, `mock_lead_capture`) is a
  side effect; a turn is embedded as returning the list of argument triples
  the callback was invoked with during that turn.
* `datetime.now()` timestamps and the `context` / `metadata` dictionaries are
  not inspected by any claim and are omitted from the state record.
-/

/- The library marks rational arithmetic `@[irreducible]`, which blocks
`decide` from evaluating concrete scores.  The definitions are sound to
unfold; restore the default transparency so concrete rational computations
reduce. -/
set_option allowUnsafeReducibility true
attribute [semireducible] Rat.add Rat.mul Rat.inv Rat.div Rat.sub Rat.neg
attribute [semireducible] Rat.ofScientific

namespace AutoStream

/-! ## String primitives

The Python string operations used by the source (`lower`, `strip`, `split`,
`startswith`, slicing, `in`) are embedded as character-list computations so
that every definition evaluates inside the kernel.  They agree with Python on
the ASCII alphabet used throughout the source. -/

/-- Python `s.lower()` (ASCII). -/
def pyLower (s : String) : String := String.mk (s.data.map Char.toLower)

/-- Python `s.strip()`: remove leading and trailing whitespace. -/
def pyStrip (s : String) : String :=
  String.mk (((s.data.dropWhile Char.isWhitespace).reverse.dropWhile
    Char.isWhitespace).reverse)

/-- Accumulator-style splitting on whitespace runs. -/
def splitWsAux : List Char → List Char → List String
  | [], acc => if acc.isEmpty then [] else [String.mk acc.reverse]
  | c :: cs, acc =>
    if c.isWhitespace then
      if acc.isEmpty then splitWsAux cs []
      else String.mk acc.reverse :: splitWsAux cs []
    else splitWsAux cs (c :: acc)

/-- Python `s.split()`: split on whitespace runs, discarding empty pieces. -/
def splitWs (s : String) : List String := splitWsAux s.data []

/-- Python `s.startswith(p)`. -/
def strStartsWith (s p : String) : Bool := p.data.isPrefixOf s.data

/-- Python `s[n:]` (character slicing). -/
def strDropChars (s : String) (n : Nat) : String := String.mk (s.data.drop n)

/-- Python `len(s)` (in characters). -/
def strLen (s : String) : Nat := s.data.length

/-! ## Word-boundary regex matching (src/agent/intent.py patterns)

Every pattern in `IntentClassifier.intent_patterns` is either `\b<literal>\b`
or `\b<literal>.*<literal>\b`, where each literal begins and ends with a word
character.  We embed exactly these two shapes.  `\b` is a boundary between a
word character (`[A-Za-z0-9_]`) and a non-word character or the string edge;
`.*` matches any run of characters other than a newline. -/

/-- A regex word character, `[A-Za-z0-9_]` (the source patterns and inputs are
ASCII, where Python's `\w` coincides with this set). -/
def isWordChar (c : Char) : Bool := c.isAlphanum || c = '_'

/-- Right boundary check: after consuming `w`, the next character (if any)
must be a non-word character.  All source literals end in a word character. -/
def rightBoundary (w : List Char) (cs : List Char) : Bool :=
  match cs.drop w.length with
  | [] => true
  | c :: _ => !isWordChar c

/-- Search for `\bw\b` in `cs`; `prev` says whether the character immediately
before `cs` is a word character.  All source literals begin with a word
character, so the left boundary demands a non-word predecessor. -/
def wbSearch (w : List Char) (prev : Bool) : List Char → Bool
  | [] => false
  | c :: cs =>
    (!prev && w.isPrefixOf (c :: cs) && rightBoundary w (c :: cs)) ||
      wbSearch w (isWordChar c) cs

/-- Match `b\b` somewhere in `cs` after a (possibly empty) `.*` gap that may
not contain a newline. -/
def gapTailSearch (b : List Char) (cs : List Char) : Bool :=
  (b.isPrefixOf cs && rightBoundary b cs) ||
    (match cs with
     | [] => false
     | c :: rest => c ≠ '\n' && gapTailSearch b rest)

/-- Search for `\ba.*b\b` in `cs`. -/
def wbGapSearch (a b : List Char) (prev : Bool) : List Char → Bool
  | [] => false
  | c :: cs =>
    (!prev && a.isPrefixOf (c :: cs) && gapTailSearch b ((c :: cs).drop a.length)) ||
      wbGapSearch a b (isWordChar c) cs

/-- The two regex shapes used by `IntentClassifier.intent_patterns`. -/
inductive Pat where
  | word (w : String)
  | gap (a b : String)
  deriving DecidableEq

/-- `re.search(pattern, s) is not None` for the two pattern shapes. -/
def Pat.found : Pat → String → Bool
  | .word w, s => wbSearch w.data false s.data
  | .gap a b, s => wbGapSearch a.data b.data false s.data

/-! ## Intent classifier (src/agent/intent.py) -/

/-- `IntentType` enumeration. -/
inductive IntentType where
  | GREET
  | INQUIRY
  | HIGH_INTENT
  deriving DecidableEq

/-- `IntentType.value`. -/
def IntentType.val : IntentType → String
  | .GREET => "GREET"
  | .INQUIRY => "INQUIRY"
  | .HIGH_INTENT => "HIGH_INTENT"

/-- `intent_patterns[IntentType.GREET]`. -/
def greet_patterns : List Pat :=
  [.word "hi", .word "hello", .word "hey", .word "howdy", .word "greetings",
   .word "good morning", .word "good afternoon", .word "good evening"]

/-- `intent_patterns[IntentType.INQUIRY]`. -/
def inquiry_patterns : List Pat :=
  [.word "price", .word "pricing", .word "plan", .word "plans",
   .word "features", .word "cost", .word "how much", .gap "what does" "cost",
   .word "do you offer", .word "what do you have", .word "tell me about",
   .word "information about"]

/-- `intent_patterns[IntentType.HIGH_INTENT]`. -/
def high_intent_patterns : List Pat :=
  [.word "i want to try", .word "sign up", .word "signup", .word "buy",
   .word "purchase", .word "order", .word "get started", .word "start trial",
   .word "free trial", .word "use for youtube", .gap "use for" "video",
   .word "my youtube", .word "my instagram", .word "my tiktok",
   .word "my facebook", .word "my linkedin", .word "for my youtube",
   .word "for my instagram", .word "for my tiktok", .word "ready to buy",
   .word "want to purchase", .word "interested in", .word "ready to start",
   .word "let's start", .word "create account", .word "register"]

/-- The exact-match short-circuit list in `classify_intent`. -/
def special_inquiry : List String := ["yes", "yes tell me", "ok", "okay"]

/-- `IntentClassifier.classify_intent`: short-circuit list, then the
HIGH_INTENT group, then the remaining groups in declaration order
(GREET before INQUIRY), falling back to GREET. -/
def classify_intent (text : String) : IntentType :=
  let text_lower := pyLower text
  if special_inquiry.contains text_lower then .INQUIRY
  else if high_intent_patterns.any (fun p => p.found text_lower) then .HIGH_INTENT
  else if greet_patterns.any (fun p => p.found text_lower) then .GREET
  else if inquiry_patterns.any (fun p => p.found text_lower) then .INQUIRY
  else .GREET

/-- `needle` occurs as a contiguous run inside `hay`. -/
def infixOfChars (needle : List Char) : List Char → Bool
  | [] => needle.isEmpty
  | c :: cs => needle.isPrefixOf (c :: cs) || infixOfChars needle cs

/-- Python `needle in hay` substring membership. -/
def strContains (hay needle : String) : Bool :=
  infixOfChars needle.data hay.data

/-- Result of `IntentClassifier.extract_entities`: at most one value per key;
a key is absent when its `Option` is `none`. -/
structure Entities where
  topic : Option String
  plan : Option String
  feature : Option String
  action : Option String
  deriving DecidableEq

/-- `IntentClassifier.extract_entities`. -/
def extract_entities (text : String) : Entities :=
  let text_lower := pyLower text
  { topic :=
      if ["price", "pricing", "cost"].any (fun w => strContains text_lower w) then
        some "pricing"
      else none,
    plan :=
      if strContains text_lower "basic" then some "basic"
      else if strContains text_lower "pro" then some "pro"
      else none,
    feature :=
      if strContains text_lower "video" then some "video"
      else if strContains text_lower "resolution" then some "resolution"
      else if strContains text_lower "captions" then some "captions"
      else none,
    action :=
      if ["buy", "purchase", "order"].any (fun w => strContains text_lower w) then
        some "purchase"
      else if ["try", "trial", "start"].any (fun w => strContains text_lower w) then
        some "trial"
      else none }

/-! ## Knowledge retrieval (src/agent/rag.py, class KnowledgeBase)

The knowledge base is a JSON object.  `retrieve_relevant_info` distinguishes
top-level values that are dicts (one level of sub-items), strings, and
anything else (skipped); sub-values are distinguished only as strings versus
non-strings.  `JVal` mirrors exactly those distinctions (`other` stands for
any JSON value that is neither a dict nor a string).  The derived entries'
`content` / `full_data` fields are pure renderings of the stored value and
are not inspected by any claim; each entry is embedded as its `key` and
`relevance_score`. -/

/-- A JSON value as distinguished by `retrieve_relevant_info`. -/
inductive JVal where
  | str (s : String)
  | obj (fields : List (String × JVal))
  | other

/-- A retrieved knowledge entry (`key` / `relevance_score` of the dicts built
by `retrieve_relevant_info`). -/
structure KEntry where
  key : String
  relevance_score : ℚ
  deriving DecidableEq

/-- `pricing_keywords` in `_is_relevant_to_query`. -/
def pricing_keywords : List String :=
  ["price", "pricing", "cost", "plan", "plans", "basic", "pro"]

/-- `policy_keywords` in `_is_relevant_to_query`. -/
def policy_keywords : List String := ["refund", "support", "policy", "policies"]

/-- `KnowledgeBase._is_relevant_to_query`.  `query` is already lowercased by
the caller.  `sub_key = none` models Python `None`; the `if sub_key:` test is
Python truthiness, so an empty sub-key also skips that branch. -/
def is_relevant_to_query (query main_key : String) (sub_key : Option String)
    (value : JVal) : Bool :=
  (pricing_keywords.any (fun kw => strContains query kw) && main_key = "pricing") ||
  (policy_keywords.any (fun kw => strContains query kw) && main_key = "policies") ||
  (match sub_key with
   | some sk =>
     sk ≠ "" &&
       (strContains query (pyLower sk) ||
        (splitWs query).any (fun word => strContains (pyLower sk) word))
   | none => false) ||
  (match value with
   | .str v => (splitWs query).any (fun word => strContains (pyLower v) word)
   | _ => false)

/-- `KnowledgeBase._calculate_relevance`.  `query` is already lowercased.
`set(query.split())` is embedded as the deduplicated token list (only the
number of distinct matching tokens enters the score).  Scores are exact
rationals; the source's float constants are exactly these decimals. -/
def calculate_relevance (query main_key : String) (sub_key : Option String)
    (value : JVal) : ℚ :=
  let query_words := (splitWs query).dedup
  if query_words = [] then 0
  else
    let sub_score : ℚ :=
      match sub_key with
      | some sk =>
        if sk ≠ "" then
          let sub_key_lower := pyLower sk
          (if strContains query sub_key_lower then (0.8 : ℚ) else 0) +
            (0.3 : ℚ) *
              ((query_words.filter (fun word => strContains sub_key_lower word)).length : ℚ)
        else 0
      | none => 0
    let main_score : ℚ := if strContains query (pyLower main_key) then 0.5 else 0
    let content_score : ℚ :=
      match value with
      | .str v =>
        (0.2 : ℚ) *
          ((query_words.filter (fun word => strContains (pyLower v) word)).length : ℚ)
      | _ => 0
    min (sub_score + main_score + content_score) 1

/-- The key under which an entry is reported: `f"{key}.{sub_key}"` for
sub-items, the bare key for top-level strings. -/
def entryKey (main_key : String) : Option String → String
  | some sk => main_key ++ "." ++ sk
  | none => main_key

/-- The entry built for a gated leaf. -/
def mkEntry (query main_key : String) (sub_key : Option String) (value : JVal) :
    KEntry :=
  ⟨entryKey main_key sub_key, calculate_relevance query main_key sub_key value⟩

/-- The gated entries contributed by one top-level dict value (the inner loop
of `retrieve_relevant_info`). -/
def subEntries (query main_key : String) : List (String × JVal) → List KEntry
  | [] => []
  | (sk, sv) :: rest =>
    (if is_relevant_to_query query main_key (some sk) sv then
       [mkEntry query main_key (some sk) sv]
     else []) ++ subEntries query main_key rest

/-- `relevant_items` as accumulated by `retrieve_relevant_info` before
sorting: dict values contribute their sub-items, string values contribute
themselves, any other value is skipped. -/
def relevant_items (query : String) : List (String × JVal) → List KEntry
  | [] => []
  | (key, JVal.obj subs) :: rest =>
    subEntries query key subs ++ relevant_items query rest
  | (key, JVal.str s) :: rest =>
    (if is_relevant_to_query query key none (.str s) then
       [mkEntry query key none (.str s)]
     else []) ++ relevant_items query rest
  | (_, JVal.other) :: rest => relevant_items query rest

/-- Descending comparison on scores.  `list.sort(key=score, reverse=True)` is
a stable sort; a stable sort is exactly insertion sort with this relation
(skip strictly greater scores, insert before the first less-or-equal one, so
ties keep encounter order). -/
def scoreGE (a b : KEntry) : Prop := b.relevance_score ≤ a.relevance_score

instance : DecidableRel scoreGE := fun a b =>
  inferInstanceAs (Decidable (b.relevance_score ≤ a.relevance_score))

/-- `KnowledgeBase.retrieve_relevant_info`: lowercase the query, collect the
gated entries, stable-sort by score descending, return the first
`max_results`. -/
def retrieve_relevant_info (query : String) (data : List (String × JVal))
    (max_results : Nat := 5) : List KEntry :=
  ((relevant_items (pyLower query) data).insertionSort scoreGE).take max_results

/-! ## Extractors (src/agent/graph.py) -/

/-- Character-level transcription of Python `str.title()`: a cased character
is uppercased after a non-cased character and lowercased otherwise (ASCII:
cased = alphabetic). -/
def titleChars : List Char → Bool → List Char
  | [], _ => []
  | c :: cs, prevCased =>
    (if prevCased then c.toLower else c.toUpper) :: titleChars cs c.isAlpha

/-- Python `s.title()`. -/
def pyTitle (s : String) : String := String.mk (titleChars s.data false)

/-- The filler phrases stripped by `WorkflowGraph._extract_name`. -/
def name_fillers : List String := ["my name is", "i'm", "i am", "call me", "it's"]

/-- `WorkflowGraph._extract_name`: strip, drop the first matching filler
phrase, take the first whitespace token, require length ≥ 2, title-case. -/
def extract_name (text : String) : Option String :=
  let t := pyStrip text
  let t :=
    match name_fillers.find? (fun p => strStartsWith (pyLower t) p) with
    | some p => pyStrip (strDropChars t (strLen p))
    | none => t
  match splitWs t with
  | [] => none
  | w :: _ => if strLen w > 1 then some (pyTitle w) else none

/-! ### Email regex (src/agent/graph.py, `_extract_email`)

`re.search(r"\b[A-Za-z0-9._%+-]+@[A-Za-z0-9.-]+\.[A-Z|a-z]{2,}\b", text)`,
returning the matched substring.  The search is leftmost match first; at a
fixed start position each `+`/`{2,}` is greedy with backtracking.  Because no
character of the local class is `@`, the local part never backtracks; the
domain part backtracks from its longest run looking for the literal dot; the
TLD part backtracks from its longest run down to length 2 looking for a
trailing word boundary.  (Note the source's TLD class `[A-Z|a-z]` really
contains `|`.) -/

/-- `[A-Za-z0-9._%+-]`. -/
def isLocalChar (c : Char) : Bool :=
  c.isAlphanum || c = '.' || c = '_' || c = '%' || c = '+' || c = '-'

/-- `[A-Za-z0-9.-]`. -/
def isDomainChar (c : Char) : Bool := c.isAlphanum || c = '.' || c = '-'

/-- `[A-Z|a-z]` (letters and the literal `|`). -/
def isTldChar (c : Char) : Bool := c.isAlpha || c = '|'

/-- Greedy-with-backtracking TLD match: try length `n`, then `n - 1`, …,
stopping below the `{2,}` minimum; a candidate length succeeds when the
trailing `\b` holds there. -/
def tryTld (tcs : List Char) : Nat → Option Nat
  | 0 => none
  | 1 => none
  | n + 2 =>
    let lastW := match tcs.get? (n + 1) with | some c => isWordChar c | none => false
    let nextW := match tcs.get? (n + 2) with | some c => isWordChar c | none => false
    if lastW != nextW then some (n + 2) else tryTld tcs (n + 1)

/-- Greedy-with-backtracking domain match on the text after `@`: try the dot
at index `d`, `d - 1`, …, `1`; on success return the total number of
characters matched after the `@`. -/
def tryDomain (rest : List Char) : Nat → Option Nat
  | 0 => none
  | d + 1 =>
    if rest.get? (d + 1) = some '.' then
      let tcs := rest.drop (d + 2)
      match tryTld tcs (tcs.takeWhile isTldChar).length with
      | some ln => some ((d + 1) + 1 + ln)
      | none => tryDomain rest d
    else tryDomain rest d

/-- Attempt an email match anchored at the head of `cs` (`prevW`: whether the
preceding character is a word character, for the leading `\b`); returns the
match length. -/
def emailMatchAt (cs : List Char) (prevW : Bool) : Option Nat :=
  match cs.takeWhile isLocalChar with
  | [] => none
  | c0 :: localRest =>
    if prevW = isWordChar c0 then none
    else
      let localLen := (c0 :: localRest).length
      match cs.drop localLen with
      | '@' :: rest =>
        match tryDomain rest (rest.takeWhile isDomainChar).length with
        | some m => some (localLen + 1 + m)
        | none => none
      | _ => none

/-- Leftmost search: try every start position in order. -/
def emailSearch : List Char → Bool → Option (List Char)
  | [], _ => none
  | c :: cs, prevW =>
    match emailMatchAt (c :: cs) prevW with
    | some n => some ((c :: cs).take n)
    | none => emailSearch cs (isWordChar c)

/-- `WorkflowGraph._extract_email`. -/
def extract_email (text : String) : Option String :=
  (emailSearch text.data false).map String.mk

/-- The fixed platform vocabulary of `WorkflowGraph._extract_platform`. -/
def platform_vocab : List String :=
  ["youtube", "tiktok", "instagram", "linkedin", "twitter", "facebook", "twitch"]

/-- `WorkflowGraph._extract_platform`: first vocabulary word occurring in the
lowercased text, title-cased. -/
def extract_platform (text : String) : Option String :=
  (platform_vocab.find? (fun p => strContains (pyLower text) p)).map pyTitle

/-! ## Workflow state machine (src/agent/graph.py)

`execute_workflow` drives the node pipeline
start → intent_classification → knowledge_retrieval → tool_execution →
response_generation → end.  The `knowledge_retrieval` node only stores
retrieved context into `state.context` (which no claim inspects) and is the
identity on the embedded fields.  The inquiry handler's reply is produced by
a `RAGEngine` loaded from a knowledge-base file outside the dialogue core;
the turn function is parameterised by that collaborator as an abstract
responder `rag : String → String`, so every theorem below holds for every
possible knowledge base.  The `mock_lead_capture` side effect is embedded as
the list of argument triples the callback receives during the turn (the
source passes `state.name` / `state.email` / `state.platform`, which are
`Optional[str]`). -/

/-- One `conversation_history` entry (its `datetime.now()` timestamp is not
inspected by any claim and is omitted). -/
inductive HistEntry where
  | user (content : String)
  | agent (content : String) (intent : Option String) (stage : String)
  deriving DecidableEq

/-- The arguments of one `mock_lead_capture(name, email, platform)` call. -/
def LeadCapture : Type := Option String × Option String × Option String

instance : DecidableEq LeadCapture :=
  inferInstanceAs (DecidableEq (Option String × Option String × Option String))

/-- `WorkflowState` (the fields the claims are about; `context`, `tools_used`
and `metadata` are never read by the dialogue logic embedded here). -/
structure WorkflowState where
  user_input : String
  intent : Option String := none
  response : Option String := none
  name : Option String := none
  email : Option String := none
  platform : Option String := none
  conversation_history : List HistEntry := []
  qualification_stage : String := "initial"
  deriving DecidableEq

/-- Python `f"{x}"` for an `Optional[str]`. -/
def pyShow : Option String → String
  | some s => s
  | none => "None"

/-- `WorkflowGraph._classify_intent`: while a qualification dialogue is in
progress with HIGH_INTENT, keep the stored intent; otherwise classify the
current input.  (The entity extraction this node also performs only writes
`state.context`.) -/
def classify_intent_node (s : WorkflowState) : WorkflowState :=
  if s.qualification_stage ≠ "initial" ∧ s.intent = some "HIGH_INTENT" then s
  else { s with intent := some (classify_intent s.user_input).val }

/-- `WorkflowGraph._handle_lead_qualification`, returning the updated state
together with the `mock_lead_capture` calls made.  Every branch assigns
`state.response` and returns immediately. -/
def handle_lead_qualification (s : WorkflowState) :
    WorkflowState × List LeadCapture :=
  if s.qualification_stage = "initial" then
    ({ s with
        response := some "Great! I'd be happy to help you get started. What's your name?",
        qualification_stage := "asking_name" }, [])
  else if s.qualification_stage = "asking_name" then
    match extract_name s.user_input with
    | some name =>
      ({ s with
          name := some name,
          response := some ("Nice to meet you, " ++ name ++ "! Now, what's your email address?"),
          qualification_stage := "asking_email" }, [])
    | none =>
      ({ s with
          response := some "I didn't catch your name. Could you please tell me your name?" }, [])
  else if s.qualification_stage = "asking_email" then
    match extract_email s.user_input with
    | some email =>
      ({ s with
          email := some email,
          response := some "Perfect! One last question - what creator platform are you planning to use? (e.g., YouTube, TikTok, Instagram, etc.)",
          qualification_stage := "asking_platform" }, [])
    | none =>
      ({ s with
          response := some "I need a valid email address. Could you please provide your email?" }, [])
  else if s.qualification_stage = "asking_platform" then
    match extract_platform s.user_input with
    | some platform =>
      let s := { s with platform := some platform }
      ({ s with
          response := some ("Thanks " ++ pyShow s.name ++ "! I've captured your information. Our team will be in touch soon!"),
          qualification_stage := "completed" },
       [(s.name, s.email, s.platform)])
    | none =>
      ({ s with
          response := some "Which creator platform will you be using? For example: YouTube, TikTok, Instagram, LinkedIn, etc.?" }, [])
  else if s.qualification_stage = "completed" then
    ({ s with
        response := some ("Thanks " ++ pyShow s.name ++ "! I've captured your information. Our team will be in touch soon!") }, [])
  else (s, [])

/-- `WorkflowGraph._execute_tools`: HIGH_INTENT runs the qualification flow,
INQUIRY asks the RAG collaborator, GREET replies with the canned greeting,
anything else does nothing. -/
def execute_tools_node (rag : String → String) (s : WorkflowState) :
    WorkflowState × List LeadCapture :=
  if s.intent = some "HIGH_INTENT" then handle_lead_qualification s
  else if s.intent = some "INQUIRY" then
    ({ s with response := some (rag s.user_input) }, [])
  else if s.intent = some "GREET" then
    ({ s with response := some "Hello 👋 How can I help you today?" }, [])
  else (s, [])

/-- `WorkflowGraph._generate_response`.  Nothing in the repository ever
writes `context["tool_result"]`, so its `status == "success"` branch is dead
and only the fallback branch remains.  `if state.response:` is Python
truthiness (an empty string does not count as set).  The `none` intent case
cannot arise from `execute_workflow` (classification always stores an
intent); in Python it would raise `AttributeError` on `.replace`, which the
orchestrator's `except` turns into an apology response. -/
def generate_response_node (s : WorkflowState) : WorkflowState :=
  if s.intent = some "HIGH_INTENT" ∧
      s.qualification_stage ∈
        (["asking_name", "asking_email", "asking_platform", "completed"] : List String) then
    s
  else if s.response.getD "" ≠ "" then s
  else
    match s.intent with
    | some "INQUIRY" =>
      { s with
          response := some "I understand you're interested in INQUIRY. Let me help you with pricing and plan information." }
    | some "GREET" =>
      { s with response := some "Hello! Welcome to AutoStream. How can I help you today?" }
    | some i =>
      { s with
          response := some ("I understand you're interested in "
            ++ String.mk (i.data.map (fun c => if c = '_' then ' ' else c))
            ++ ". Let me help you with that.") }
    | none => s

/-- The state at the start of a turn: reuse the previous state (overwriting
`user_input`) or create a fresh one; either way append the user utterance to
the history. -/
def ingest_input (user_input : String) : Option WorkflowState → WorkflowState
  | some s =>
    { s with
        user_input := user_input,
        conversation_history := s.conversation_history ++ [HistEntry.user user_input] }
  | none => { user_input := user_input, conversation_history := [HistEntry.user user_input] }

/-- The post-processing of `execute_workflow`: append the agent response to
the history when it is set (Python truthiness: a non-empty string). -/
def append_agent_response (s : WorkflowState) : WorkflowState :=
  match s.response with
  | some r =>
    if r = "" then s
    else
      { s with
          conversation_history :=
            s.conversation_history ++ [HistEntry.agent r s.intent s.qualification_stage] }
  | none => s

/-- `WorkflowGraph.execute_workflow` — one full turn, returning the updated
state and the list of `mock_lead_capture` invocations it performed. -/
def run_turn (rag : String → String) (user_input : String)
    (existing : Option WorkflowState) : WorkflowState × List LeadCapture :=
  let s0 := ingest_input user_input existing
  let s1 := classify_intent_node s0
  let r2 := execute_tools_node rag s1
  let s3 := generate_response_node r2.1
  (append_agent_response s3, r2.2)

/-- A whole conversation: thread the state through the turns, starting from
no previous state, and collect every capture made along the way. -/
def runConv (rag : String → String) (us : List String) :
    Option WorkflowState × List LeadCapture :=
  us.foldl
    (fun acc u =>
      let r := run_turn rag u acc.1
      (some r.1, acc.2 ++ r.2))
    (none, [])

/-- The states a conversation can actually be in: everything produced by
`run_turn` from a fresh start or from a previously reachable state (with any
knowledge-base collaborator on any turn). -/
inductive Reachable : WorkflowState → Prop where
  | base (rag : String → String) (u : String) : Reachable (run_turn rag u none).1
  | step (rag : String → String) (u : String) (s : WorkflowState) :
      Reachable s → Reachable (run_turn rag u (some s)).1

/-- Position of a stage in the forward progression; names outside the enum
(never produced by the code) sit at the bottom. -/
def stageIdx (stage : String) : Nat :=
  if stage = "asking_name" then 1
  else if stage = "asking_email" then 2
  else if stage = "asking_platform" then 3
  else if stage = "completed" then 4
  else 0

/-- Invariant maintained by every turn: the stage is one of the five enum
values; away from `initial` the stored intent is HIGH_INTENT (the sticky
rule); and each stage owns the lead fields collected on the way to it. -/
def TurnInv (s : WorkflowState) : Prop :=
  (s.qualification_stage = "initial" ∨ s.qualification_stage = "asking_name" ∨
     s.qualification_stage = "asking_email" ∨ s.qualification_stage = "asking_platform" ∨
     s.qualification_stage = "completed") ∧
  (s.qualification_stage ≠ "initial" → s.intent = some "HIGH_INTENT") ∧
  ((s.qualification_stage = "asking_email" ∨ s.qualification_stage = "asking_platform" ∨
      s.qualification_stage = "completed") → s.name.isSome) ∧
  ((s.qualification_stage = "asking_platform" ∨ s.qualification_stage = "completed") →
    s.email.isSome) ∧
  (s.qualification_stage = "completed" → s.platform.isSome)

/-! ## Field-preservation lemmas for the turn pipeline -/

@[simp] theorem classify_intent_node_stage (s : WorkflowState) :
    (classify_intent_node s).qualification_stage = s.qualification_stage := by
  unfold classify_intent_node; split <;> rfl

@[simp] theorem classify_intent_node_name (s : WorkflowState) :
    (classify_intent_node s).name = s.name := by
  unfold classify_intent_node; split <;> rfl

@[simp] theorem classify_intent_node_email (s : WorkflowState) :
    (classify_intent_node s).email = s.email := by
  unfold classify_intent_node; split <;> rfl

@[simp] theorem classify_intent_node_platform (s : WorkflowState) :
    (classify_intent_node s).platform = s.platform := by
  unfold classify_intent_node; split <;> rfl

@[simp] theorem classify_intent_node_response (s : WorkflowState) :
    (classify_intent_node s).response = s.response := by
  unfold classify_intent_node; split <;> rfl

@[simp] theorem classify_intent_node_hist (s : WorkflowState) :
    (classify_intent_node s).conversation_history = s.conversation_history := by
  unfold classify_intent_node; split <;> rfl

@[simp] theorem classify_intent_node_user (s : WorkflowState) :
    (classify_intent_node s).user_input = s.user_input := by
  unfold classify_intent_node; split <;> rfl

theorem classify_intent_node_sticky (s : WorkflowState)
    (h1 : s.qualification_stage ≠ "initial") (h2 : s.intent = some "HIGH_INTENT") :
    classify_intent_node s = s := by
  unfold classify_intent_node
  rw [if_pos ⟨h1, h2⟩]

@[simp] theorem handle_lead_qualification_hist (s : WorkflowState) :
    (handle_lead_qualification s).1.conversation_history = s.conversation_history := by
  unfold handle_lead_qualification
  repeat' split
  all_goals rfl

@[simp] theorem handle_lead_qualification_intent (s : WorkflowState) :
    (handle_lead_qualification s).1.intent = s.intent := by
  unfold handle_lead_qualification
  repeat' split
  all_goals rfl

@[simp] theorem handle_lead_qualification_user (s : WorkflowState) :
    (handle_lead_qualification s).1.user_input = s.user_input := by
  unfold handle_lead_qualification
  repeat' split
  all_goals rfl

@[simp] theorem execute_tools_node_hist (rag : String → String) (s : WorkflowState) :
    (execute_tools_node rag s).1.conversation_history = s.conversation_history := by
  unfold execute_tools_node
  repeat' split
  all_goals simp

@[simp] theorem execute_tools_node_intent (rag : String → String) (s : WorkflowState) :
    (execute_tools_node rag s).1.intent = s.intent := by
  unfold execute_tools_node
  repeat' split
  all_goals simp

@[simp] theorem generate_response_node_stage (s : WorkflowState) :
    (generate_response_node s).qualification_stage = s.qualification_stage := by
  unfold generate_response_node
  repeat' split
  all_goals rfl

@[simp] theorem generate_response_node_intent (s : WorkflowState) :
    (generate_response_node s).intent = s.intent := by
  unfold generate_response_node
  repeat' split
  all_goals rfl

@[simp] theorem generate_response_node_name (s : WorkflowState) :
    (generate_response_node s).name = s.name := by
  unfold generate_response_node
  repeat' split
  all_goals rfl

@[simp] theorem generate_response_node_email (s : WorkflowState) :
    (generate_response_node s).email = s.email := by
  unfold generate_response_node
  repeat' split
  all_goals rfl

@[simp] theorem generate_response_node_platform (s : WorkflowState) :
    (generate_response_node s).platform = s.platform := by
  unfold generate_response_node
  repeat' split
  all_goals rfl

@[simp] theorem generate_response_node_hist (s : WorkflowState) :
    (generate_response_node s).conversation_history = s.conversation_history := by
  unfold generate_response_node
  repeat' split
  all_goals rfl

@[simp] theorem append_agent_response_stage (s : WorkflowState) :
    (append_agent_response s).qualification_stage = s.qualification_stage := by
  unfold append_agent_response
  repeat' split
  all_goals rfl

@[simp] theorem append_agent_response_intent (s : WorkflowState) :
    (append_agent_response s).intent = s.intent := by
  unfold append_agent_response
  repeat' split
  all_goals rfl

@[simp] theorem append_agent_response_response (s : WorkflowState) :
    (append_agent_response s).response = s.response := by
  unfold append_agent_response
  repeat' split
  all_goals rfl

@[simp] theorem append_agent_response_name (s : WorkflowState) :
    (append_agent_response s).name = s.name := by
  unfold append_agent_response
  repeat' split
  all_goals rfl

@[simp] theorem append_agent_response_email (s : WorkflowState) :
    (append_agent_response s).email = s.email := by
  unfold append_agent_response
  repeat' split
  all_goals rfl

@[simp] theorem append_agent_response_platform (s : WorkflowState) :
    (append_agent_response s).platform = s.platform := by
  unfold append_agent_response
  repeat' split
  all_goals rfl

theorem append_agent_response_hist (s : WorkflowState) :
    (append_agent_response s).conversation_history =
      s.conversation_history ++
        (match s.response with
         | some r =>
           if r = "" then []
           else [HistEntry.agent r s.intent s.qualification_stage]
         | none => []) := by
  unfold append_agent_response
  repeat' split
  all_goals simp

/-! ## Projections of one turn -/

@[simp] theorem ingest_input_stage (u : String) (s : WorkflowState) :
    (ingest_input u (some s)).qualification_stage = s.qualification_stage := rfl

@[simp] theorem ingest_input_intent (u : String) (s : WorkflowState) :
    (ingest_input u (some s)).intent = s.intent := rfl

@[simp] theorem ingest_input_name (u : String) (s : WorkflowState) :
    (ingest_input u (some s)).name = s.name := rfl

@[simp] theorem ingest_input_email (u : String) (s : WorkflowState) :
    (ingest_input u (some s)).email = s.email := rfl

@[simp] theorem ingest_input_platform (u : String) (s : WorkflowState) :
    (ingest_input u (some s)).platform = s.platform := rfl

@[simp] theorem ingest_input_user (u : String) (ex : Option WorkflowState) :
    (ingest_input u ex).user_input = u := by cases ex <;> rfl

@[simp] theorem ingest_input_none_stage (u : String) :
    (ingest_input u none).qualification_stage = "initial" := rfl

@[simp] theorem ingest_input_none_intent (u : String) :
    (ingest_input u none).intent = none := rfl

@[simp] theorem ingest_input_none_name (u : String) :
    (ingest_input u none).name = none := rfl

@[simp] theorem ingest_input_none_email (u : String) :
    (ingest_input u none).email = none := rfl

@[simp] theorem ingest_input_none_platform (u : String) :
    (ingest_input u none).platform = none := rfl

theorem run_turn_stage (rag : String → String) (u : String) (ex : Option WorkflowState) :
    (run_turn rag u ex).1.qualification_stage =
      (execute_tools_node rag (classify_intent_node (ingest_input u ex))).1.qualification_stage := by
  simp [run_turn]

theorem run_turn_intent (rag : String → String) (u : String) (ex : Option WorkflowState) :
    (run_turn rag u ex).1.intent = (classify_intent_node (ingest_input u ex)).intent := by
  simp [run_turn]

theorem run_turn_name (rag : String → String) (u : String) (ex : Option WorkflowState) :
    (run_turn rag u ex).1.name =
      (execute_tools_node rag (classify_intent_node (ingest_input u ex))).1.name := by
  simp [run_turn]

theorem run_turn_email (rag : String → String) (u : String) (ex : Option WorkflowState) :
    (run_turn rag u ex).1.email =
      (execute_tools_node rag (classify_intent_node (ingest_input u ex))).1.email := by
  simp [run_turn]

theorem run_turn_platform (rag : String → String) (u : String) (ex : Option WorkflowState) :
    (run_turn rag u ex).1.platform =
      (execute_tools_node rag (classify_intent_node (ingest_input u ex))).1.platform := by
  simp [run_turn]

theorem run_turn_caps (rag : String → String) (u : String) (ex : Option WorkflowState) :
    (run_turn rag u ex).2 =
      (execute_tools_node rag (classify_intent_node (ingest_input u ex))).2 := by
  simp [run_turn]

theorem run_turn_response (rag : String → String) (u : String) (ex : Option WorkflowState) :
    (run_turn rag u ex).1.response =
      (generate_response_node
        (execute_tools_node rag (classify_intent_node (ingest_input u ex))).1).response := by
  simp [run_turn]

/-! ## Case equations for the node functions -/

theorem classify_intent_node_intent_cases (s : WorkflowState) :
    (classify_intent_node s).intent = some "HIGH_INTENT" ∨
    (classify_intent_node s).intent = some "GREET" ∨
    (classify_intent_node s).intent = some "INQUIRY" := by
  unfold classify_intent_node
  split
  · rename_i h
    exact Or.inl h.2
  · cases classify_intent s.user_input <;> simp [IntentType.val]

theorem execute_tools_high (rag : String → String) (s : WorkflowState)
    (h : s.intent = some "HIGH_INTENT") :
    execute_tools_node rag s = handle_lead_qualification s := by
  unfold execute_tools_node
  rw [if_pos h]

theorem execute_tools_inquiry (rag : String → String) (s : WorkflowState)
    (h : s.intent = some "INQUIRY") :
    execute_tools_node rag s = ({ s with response := some (rag s.user_input) }, []) := by
  unfold execute_tools_node
  rw [if_neg (by simp [h]), if_pos h]

theorem execute_tools_greet (rag : String → String) (s : WorkflowState)
    (h : s.intent = some "GREET") :
    execute_tools_node rag s =
      ({ s with response := some "Hello 👋 How can I help you today?" }, []) := by
  unfold execute_tools_node
  rw [if_neg (by simp [h]), if_neg (by simp [h]), if_pos h]

theorem handle_initial (s : WorkflowState) (h : s.qualification_stage = "initial") :
    handle_lead_qualification s =
      ({ s with
          response := some "Great! I'd be happy to help you get started. What's your name?",
          qualification_stage := "asking_name" }, []) := by
  unfold handle_lead_qualification
  rw [if_pos h]

theorem handle_asking_name_extracted (s : WorkflowState) (n : String)
    (h : s.qualification_stage = "asking_name") (hx : extract_name s.user_input = some n) :
    handle_lead_qualification s =
      ({ s with
          name := some n,
          response := some ("Nice to meet you, " ++ n ++ "! Now, what's your email address?"),
          qualification_stage := "asking_email" }, []) := by
  unfold handle_lead_qualification
  rw [if_neg (by simp [h]), if_pos h, hx]

theorem handle_asking_name_missing (s : WorkflowState)
    (h : s.qualification_stage = "asking_name") (hx : extract_name s.user_input = none) :
    handle_lead_qualification s =
      ({ s with
          response := some "I didn't catch your name. Could you please tell me your name?" }, []) := by
  unfold handle_lead_qualification
  rw [if_neg (by simp [h]), if_pos h, hx]

theorem handle_asking_email_extracted (s : WorkflowState) (e : String)
    (h : s.qualification_stage = "asking_email") (hx : extract_email s.user_input = some e) :
    handle_lead_qualification s =
      ({ s with
          email := some e,
          response := some "Perfect! One last question - what creator platform are you planning to use? (e.g., YouTube, TikTok, Instagram, etc.)",
          qualification_stage := "asking_platform" }, []) := by
  unfold handle_lead_qualification
  rw [if_neg (by simp [h]), if_neg (by simp [h]), if_pos h, hx]

theorem handle_asking_email_missing (s : WorkflowState)
    (h : s.qualification_stage = "asking_email") (hx : extract_email s.user_input = none) :
    handle_lead_qualification s =
      ({ s with
          response := some "I need a valid email address. Could you please provide your email?" }, []) := by
  unfold handle_lead_qualification
  rw [if_neg (by simp [h]), if_neg (by simp [h]), if_pos h, hx]

theorem handle_asking_platform_extracted (s : WorkflowState) (p : String)
    (h : s.qualification_stage = "asking_platform") (hx : extract_platform s.user_input = some p) :
    handle_lead_qualification s =
      ({ s with
          platform := some p,
          response := some ("Thanks " ++ pyShow s.name ++ "! I've captured your information. Our team will be in touch soon!"),
          qualification_stage := "completed" },
       [(s.name, s.email, some p)]) := by
  unfold handle_lead_qualification
  rw [if_neg (by simp [h]), if_neg (by simp [h]), if_neg (by simp [h]), if_pos h, hx]

theorem handle_asking_platform_missing (s : WorkflowState)
    (h : s.qualification_stage = "asking_platform") (hx : extract_platform s.user_input = none) :
    handle_lead_qualification s =
      ({ s with
          response := some "Which creator platform will you be using? For example: YouTube, TikTok, Instagram, LinkedIn, etc.?" }, []) := by
  unfold handle_lead_qualification
  rw [if_neg (by simp [h]), if_neg (by simp [h]), if_neg (by simp [h]), if_pos h, hx]

theorem handle_completed (s : WorkflowState) (h : s.qualification_stage = "completed") :
    handle_lead_qualification s =
      ({ s with
          response := some ("Thanks " ++ pyShow s.name ++ "! I've captured your information. Our team will be in touch soon!") }, []) := by
  unfold handle_lead_qualification
  rw [if_neg (by simp [h]), if_neg (by simp [h]), if_neg (by simp [h]),
    if_neg (by simp [h]), if_pos h]

/-- Any branch of the qualification handler only ever moves the stage
forward. -/
theorem handle_stage_mono (s : WorkflowState) :
    stageIdx s.qualification_stage ≤
      stageIdx (handle_lead_qualification s).1.qualification_stage := by
  unfold handle_lead_qualification
  repeat' split
  all_goals simp_all [stageIdx]

/-! ## Provenance of retrieved entries -/

/-- `LeafAt data mk sk v`: the pair scanned by `retrieve_relevant_info` with
top-level key `mk`, optional sub-key `sk` and value `v` occurs in `data`
(sub-items of dict values, or top-level string values). -/
def LeafAt (data : List (String × JVal)) (main_key : String)
    (sub_key : Option String) (v : JVal) : Prop :=
  (∃ subs sk, sub_key = some sk ∧ (main_key, JVal.obj subs) ∈ data ∧ (sk, v) ∈ subs) ∨
  (sub_key = none ∧ (main_key, v) ∈ data ∧ ∃ t, v = JVal.str t)

/-- The score formula exactly as the specification words it: start at 0; add
0.8 if the sub-key appears verbatim in the query; add 0.3 per (distinct)
query token that is a substring of the sub-key; add 0.5 if the top-level key
appears in the query; add 0.2 per query token that is a substring of the
leaf text; clamp at 1.0.  (No guard for a token-free query and no guard for
an empty sub-key — the spec states none.) -/
def claim_score (query main_key : String) (sub_key : Option String)
    (value : JVal) : ℚ :=
  let toks := (splitWs query).dedup
  min
    ((match sub_key with
      | some sk =>
        (if strContains query (pyLower sk) then (0.8 : ℚ) else 0) +
          (0.3 : ℚ) *
            ((toks.filter (fun word => strContains (pyLower sk) word)).length : ℚ)
      | none => 0) +
      (if strContains query (pyLower main_key) then (0.5 : ℚ) else 0) +
      (match value with
       | .str v =>
         (0.2 : ℚ) *
           ((toks.filter (fun word => strContains (pyLower v) word)).length : ℚ)
       | _ => 0))
    1

/-- The claim's score formula amended by the counterexample: identical to the
claim's clamped sum except that a query with no whitespace tokens scores 0
and an empty sub-key contributes nothing (tokens are the distinct query
tokens). -/
def claim_score_amended (query main_key : String) (sub_key : Option String)
    (value : JVal) : ℚ :=
  let toks := (splitWs query).dedup
  if toks = [] then 0
  else
    min
      ((match sub_key with
        | some sk =>
          if sk = "" then 0
          else
            (if strContains query (pyLower sk) then (0.8 : ℚ) else 0) +
              (0.3 : ℚ) *
                ((toks.filter (fun word => strContains (pyLower sk) word)).length : ℚ)
        | none => 0) +
        (if strContains query (pyLower main_key) then (0.5 : ℚ) else 0) +
        (match value with
         | .str v =>
           (0.2 : ℚ) *
             ((toks.filter (fun word => strContains (pyLower v) word)).length : ℚ)
         | _ => 0))
      1

/-! ## Concrete fixtures used by the witnesses -/

/-- A trivial knowledge-base collaborator for concrete runs. -/
def rag0 : String → String := fun _ => ""

/-- The turn sequence of Scenario C. -/
def c1Turns : List String :=
  ["I want to try", "John", "john@example.com", "YouTube"]

/-- State after turn 1 of Scenario C. -/
def s1c : WorkflowState := (run_turn rag0 "I want to try" none).1

/-- State after turn 2 of Scenario C. -/
def s2c : WorkflowState := (run_turn rag0 "John" (some s1c)).1

/-- State after turn 3 of Scenario C. -/
def s3c : WorkflowState := (run_turn rag0 "john@example.com" (some s2c)).1

/-- State after turn 4 of Scenario C. -/
def s4c : WorkflowState := (run_turn rag0 "YouTube" (some s3c)).1

/-- A small concrete knowledge tree. -/
def demoTree : List (String × JVal) :=
  [("pricing", .obj [("Basic", .str "19 usd"), ("Pro", .obj [])]),
   ("policies", .obj [("refund", .str "30 day refund")]),
   ("about", .str "creator tools")]

/-- The tree exhibiting the divergence between the spec's score formula and
the code (a whitespace sub-key). -/
def cexTree : List (String × JVal) := [("pricing", JVal.obj [(" ", JVal.str "x")])]

/-! ## The conversation invariant -/

/-- A turn that leaves stage and lead fields untouched (the GREET and
INQUIRY handlers) preserves the invariant. -/
theorem turnInv_transfer (rag : String → String) (u : String)
    (ex : Option WorkflowState) (h : ∀ s, ex = some s → TurnInv s) (v : String)
    (hI : (classify_intent_node (ingest_input u ex)).intent = some v)
    (e1 : (run_turn rag u ex).1.qualification_stage =
      (ingest_input u ex).qualification_stage)
    (e2 : (run_turn rag u ex).1.name = (ingest_input u ex).name)
    (e3 : (run_turn rag u ex).1.email = (ingest_input u ex).email)
    (e4 : (run_turn rag u ex).1.platform = (ingest_input u ex).platform)
    (hintent : (run_turn rag u ex).1.intent =
      (classify_intent_node (ingest_input u ex)).intent) :
    TurnInv (run_turn rag u ex).1 := by
  refine ⟨?_, ?_, ?_, ?_, ?_⟩
  · rw [e1]
    cases ex with
    | none => left; simp
    | some s => simpa using (h s rfl).1
  · rw [e1]
    intro hne
    rw [hintent, hI]
    cases ex with
    | none => simp at hne
    | some s =>
      have hne' : s.qualification_stage ≠ "initial" := by simpa using hne
      have hhi := (h s rfl).2.1 hne'
      rw [classify_intent_node_sticky (ingest_input u (some s))
        (by simpa using hne') (by simpa using hhi)] at hI
      simp only [ingest_input_intent] at hI
      rw [hhi] at hI
      exact hI.symm
  · rw [e1, e2]
    intro hc
    cases ex with
    | none => simp at hc
    | some s => simpa using (h s rfl).2.2.1 (by simpa using hc)
  · rw [e1, e3]
    intro hc
    cases ex with
    | none => simp at hc
    | some s => simpa using (h s rfl).2.2.2.1 (by simpa using hc)
  · rw [e1, e4]
    intro hc
    cases ex with
    | none => simp at hc
    | some s => simpa using (h s rfl).2.2.2.2 (by simpa using hc)

theorem turnInv_of_run_turn (rag : String → String) (u : String)
    (ex : Option WorkflowState)
    (h : ∀ s, ex = some s → TurnInv s) : TurnInv (run_turn rag u ex).1 := by
  have hstage := run_turn_stage rag u ex
  have hintent := run_turn_intent rag u ex
  have hname := run_turn_name rag u ex
  have hemail := run_turn_email rag u ex
  have hplatform := run_turn_platform rag u ex
  rcases classify_intent_node_intent_cases (ingest_input u ex) with hI | hI | hI
  rotate_left
  · -- GREET: the tools node only sets the response
    rw [execute_tools_greet rag _ hI] at hstage hname hemail hplatform
    have e1 : (run_turn rag u ex).1.qualification_stage =
        (ingest_input u ex).qualification_stage := by rw [hstage]; simp
    have e2 : (run_turn rag u ex).1.name = (ingest_input u ex).name := by
      rw [hname]; simp
    have e3 : (run_turn rag u ex).1.email = (ingest_input u ex).email := by
      rw [hemail]; simp
    have e4 : (run_turn rag u ex).1.platform = (ingest_input u ex).platform := by
      rw [hplatform]; simp
    exact turnInv_transfer rag u ex h "GREET" hI e1 e2 e3 e4 hintent
  · -- INQUIRY: the tools node only sets the response
    rw [execute_tools_inquiry rag _ hI] at hstage hname hemail hplatform
    have e1 : (run_turn rag u ex).1.qualification_stage =
        (ingest_input u ex).qualification_stage := by rw [hstage]; simp
    have e2 : (run_turn rag u ex).1.name = (ingest_input u ex).name := by
      rw [hname]; simp
    have e3 : (run_turn rag u ex).1.email = (ingest_input u ex).email := by
      rw [hemail]; simp
    have e4 : (run_turn rag u ex).1.platform = (ingest_input u ex).platform := by
      rw [hplatform]; simp
    exact turnInv_transfer rag u ex h "INQUIRY" hI e1 e2 e3 e4 hintent
  · -- HIGH_INTENT: the qualification machine runs
    rw [execute_tools_high rag _ hI] at hstage hname hemail hplatform
    have hIafter : (run_turn rag u ex).1.intent = some "HIGH_INTENT" := by
      rw [hintent]; exact hI
    have hstage5 :
        (ingest_input u ex).qualification_stage = "initial" ∨
        (ingest_input u ex).qualification_stage = "asking_name" ∨
        (ingest_input u ex).qualification_stage = "asking_email" ∨
        (ingest_input u ex).qualification_stage = "asking_platform" ∨
        (ingest_input u ex).qualification_stage = "completed" := by
      cases ex with
      | none => left; rfl
      | some s => simpa using (h s rfl).1
    have hnamePre :
        ((ingest_input u ex).qualification_stage = "asking_email" ∨
         (ingest_input u ex).qualification_stage = "asking_platform" ∨
         (ingest_input u ex).qualification_stage = "completed") →
        (ingest_input u ex).name.isSome := by
      cases ex with
      | none =>
        simp only [ingest_input_none_stage, ingest_input_none_name]
        decide
      | some s => simpa using (h s rfl).2.2.1
    have hemailPre :
        ((ingest_input u ex).qualification_stage = "asking_platform" ∨
         (ingest_input u ex).qualification_stage = "completed") →
        (ingest_input u ex).email.isSome := by
      cases ex with
      | none =>
        simp only [ingest_input_none_stage, ingest_input_none_email]
        decide
      | some s => simpa using (h s rfl).2.2.2.1
    have hplatformPre :
        (ingest_input u ex).qualification_stage = "completed" →
        (ingest_input u ex).platform.isSome := by
      cases ex with
      | none =>
        simp only [ingest_input_none_stage, ingest_input_none_platform]
        decide
      | some s => simpa using (h s rfl).2.2.2.2
    set t := classify_intent_node (ingest_input u ex) with hT
    have ht5 : t.qualification_stage = (ingest_input u ex).qualification_stage := by simp [hT]
    have htn : t.name = (ingest_input u ex).name := by simp [hT]
    have hte : t.email = (ingest_input u ex).email := by simp [hT]
    have htp : t.platform = (ingest_input u ex).platform := by simp [hT]
    rcases hstage5 with h0 | h0 | h0 | h0 | h0
    · rw [handle_initial t (ht5.trans h0)] at hstage hname hemail hplatform
      refine ⟨?_, ?_, ?_, ?_, ?_⟩ <;> simp_all
    · cases hx : extract_name t.user_input with
      | some n =>
        rw [handle_asking_name_extracted t n (ht5.trans h0) hx]
          at hstage hname hemail hplatform
        refine ⟨?_, ?_, ?_, ?_, ?_⟩ <;> simp_all
      | none =>
        rw [handle_asking_name_missing t (ht5.trans h0) hx]
          at hstage hname hemail hplatform
        refine ⟨?_, ?_, ?_, ?_, ?_⟩ <;> simp_all
    · cases hx : extract_email t.user_input with
      | some e =>
        rw [handle_asking_email_extracted t e (ht5.trans h0) hx]
          at hstage hname hemail hplatform
        refine ⟨?_, ?_, ?_, ?_, ?_⟩ <;> simp_all
      | none =>
        rw [handle_asking_email_missing t (ht5.trans h0) hx]
          at hstage hname hemail hplatform
        refine ⟨?_, ?_, ?_, ?_, ?_⟩ <;> simp_all
    · cases hx : extract_platform t.user_input with
      | some p =>
        rw [handle_asking_platform_extracted t p (ht5.trans h0) hx]
          at hstage hname hemail hplatform
        refine ⟨?_, ?_, ?_, ?_, ?_⟩ <;> simp_all
      | none =>
        rw [handle_asking_platform_missing t (ht5.trans h0) hx]
          at hstage hname hemail hplatform
        refine ⟨?_, ?_, ?_, ?_, ?_⟩ <;> simp_all
    · rw [handle_completed t (ht5.trans h0)] at hstage hname hemail hplatform
      refine ⟨?_, ?_, ?_, ?_, ?_⟩ <;> simp_all

/-- Every reachable conversation state satisfies the invariant. -/
theorem reachable_turnInv (s : WorkflowState) (h : Reachable s) : TurnInv s := by
  induction h with
  | base rag u => exact turnInv_of_run_turn rag u none (by intro s hs; cases hs)
  | step rag u s hs ih =>
    exact turnInv_of_run_turn rag u (some s) (by intro s' hs'; cases hs'; exact ih)

/-! ## Sorting lemmas for retrieval -/

instance : IsTotal KEntry scoreGE :=
  ⟨fun a b => le_total b.relevance_score a.relevance_score⟩

instance : IsTrans KEntry scoreGE :=
  ⟨fun _ _ _ hab hbc => le_trans hbc hab⟩

/-- Inserting an entry only adds it in front of entries of smaller-or-equal
score, so per-score filtering is unchanged except for the new entry. -/
theorem filter_orderedInsert_score (x : KEntry) (l : List KEntry) (s : ℚ) :
    (List.orderedInsert scoreGE x l).filter (fun e => decide (e.relevance_score = s)) =
      if x.relevance_score = s then
        x :: l.filter (fun e => decide (e.relevance_score = s))
      else l.filter (fun e => decide (e.relevance_score = s)) := by
  induction l with
  | nil => by_cases hx : x.relevance_score = s <;> simp [List.orderedInsert, hx]
  | cons y ys ih =>
    by_cases hxy : scoreGE x y
    · simp only [List.orderedInsert, if_pos hxy]
      by_cases hx : x.relevance_score = s <;> by_cases hy : y.relevance_score = s <;>
        simp [hx, hy]
    · simp only [List.orderedInsert, if_neg hxy]
      by_cases hx : x.relevance_score = s
      · have hyne : ¬y.relevance_score = s := by
          intro hys
          exact hxy (le_of_eq (hys.trans hx.symm))
        simp [hx, hyne, ih]
      · by_cases hy : y.relevance_score = s <;> simp [hx, hy, ih]

/-- The stable descending sort keeps the encounter order inside every score
class. -/
theorem filter_insertionSort_score (l : List KEntry) (s : ℚ) :
    (l.insertionSort scoreGE).filter (fun e => decide (e.relevance_score = s)) =
      l.filter (fun e => decide (e.relevance_score = s)) := by
  induction l with
  | nil => rfl
  | cons x xs ih =>
    simp only [List.insertionSort]
    rw [filter_orderedInsert_score]
    by_cases hx : x.relevance_score = s <;> simp [hx, ih]

theorem isPrefix_filter {α : Type} (p : α → Bool) {l1 l2 : List α}
    (h : l1 <+: l2) : l1.filter p <+: l2.filter p := by
  obtain ⟨t, rfl⟩ := h
  exact ⟨t.filter p, (List.filter_append l1 t).symm⟩

/-! ## Provenance lemmas for retrieval -/

theorem LeafAt_cons {data : List (String × JVal)} {p : String × JVal}
    {mk : String} {sk : Option String} {v : JVal} (h : LeafAt data mk sk v) :
    LeafAt (p :: data) mk sk v := by
  rcases h with ⟨subs, sk0, hsk, hmem, hsub⟩ | ⟨hsk, hmem, ht⟩
  · exact Or.inl ⟨subs, sk0, hsk, List.mem_cons_of_mem p hmem, hsub⟩
  · exact Or.inr ⟨hsk, List.mem_cons_of_mem p hmem, ht⟩

theorem mem_subEntries {q mk : String} {e : KEntry} :
    ∀ {subs : List (String × JVal)}, e ∈ subEntries q mk subs →
      ∃ sk sv, (sk, sv) ∈ subs ∧ is_relevant_to_query q mk (some sk) sv = true ∧
        e = mkEntry q mk (some sk) sv := by
  intro subs h
  induction subs with
  | nil => cases h
  | cons p rest ih =>
    obtain ⟨sk0, sv0⟩ := p
    simp only [subEntries] at h
    rcases List.mem_append.mp h with h1 | h2
    · by_cases hg : is_relevant_to_query q mk (some sk0) sv0 = true
      · rw [if_pos hg] at h1
        simp only [List.mem_singleton] at h1
        exact ⟨sk0, sv0, List.mem_cons_self _ _, hg, h1⟩
      · rw [if_neg hg] at h1
        cases h1
    · obtain ⟨sk, sv, hmem, hgate, he⟩ := ih h2
      exact ⟨sk, sv, List.mem_cons_of_mem _ hmem, hgate, he⟩

theorem mem_relevant_items {q : String} {e : KEntry} :
    ∀ {data : List (String × JVal)}, e ∈ relevant_items q data →
      ∃ mk sk v, LeafAt data mk sk v ∧ is_relevant_to_query q mk sk v = true ∧
        e = mkEntry q mk sk v := by
  intro data h
  induction data with
  | nil => cases h
  | cons p rest ih =>
    obtain ⟨key, val⟩ := p
    cases val with
    | obj subs =>
      simp only [relevant_items] at h
      rcases List.mem_append.mp h with h1 | h2
      · obtain ⟨sk, sv, hmem, hgate, he⟩ := mem_subEntries h1
        exact ⟨key, some sk, sv,
          Or.inl ⟨subs, sk, rfl, List.mem_cons_self _ _, hmem⟩, hgate, he⟩
      · obtain ⟨mk, sk, v, hleaf, hgate, he⟩ := ih h2
        exact ⟨mk, sk, v, LeafAt_cons hleaf, hgate, he⟩
    | str t =>
      simp only [relevant_items] at h
      rcases List.mem_append.mp h with h1 | h2
      · by_cases hg : is_relevant_to_query q key none (.str t) = true
        · rw [if_pos hg] at h1
          simp only [List.mem_singleton] at h1
          exact ⟨key, none, .str t,
            Or.inr ⟨rfl, List.mem_cons_self _ _, t, rfl⟩, hg, h1⟩
        · rw [if_neg hg] at h1
          cases h1
      · obtain ⟨mk, sk, v, hleaf, hgate, he⟩ := ih h2
        exact ⟨mk, sk, v, LeafAt_cons hleaf, hgate, he⟩
    | other =>
      simp only [relevant_items] at h
      obtain ⟨mk, sk, v, hleaf, hgate, he⟩ := ih h
      exact ⟨mk, sk, v, LeafAt_cons hleaf, hgate, he⟩

/-! ## Score bounds -/

theorem calculate_relevance_nonneg (q mk : String) (sk : Option String)
    (v : JVal) : 0 ≤ calculate_relevance q mk sk v := by
  unfold calculate_relevance
  repeat' split
  all_goals positivity

theorem calculate_relevance_le_one (q mk : String) (sk : Option String)
    (v : JVal) : calculate_relevance q mk sk v ≤ 1 := by
  rcases sk with _ | sk0 <;> rcases v with t | fs | _ <;>
    (unfold calculate_relevance; dsimp only; repeat' split) <;>
    first
      | exact min_le_right _ _
      | exact zero_le_one

/-! ## Further turn-level lemmas -/

theorem generate_response_node_freeze (s : WorkflowState)
    (h1 : s.intent = some "HIGH_INTENT")
    (h2 : s.qualification_stage ∈
      (["asking_name", "asking_email", "asking_platform", "completed"] : List String)) :
    generate_response_node s = s := by
  unfold generate_response_node
  rw [if_pos ⟨h1, h2⟩]

/-- A single turn never moves the stage backwards, whatever the incoming
state, utterance and collaborator. -/
theorem run_turn_stage_mono (rag : String → String) (u : String)
    (s : WorkflowState) :
    stageIdx s.qualification_stage ≤
      stageIdx (run_turn rag u (some s)).1.qualification_stage := by
  rw [run_turn_stage]
  rcases classify_intent_node_intent_cases (ingest_input u (some s)) with hI | hI | hI
  · rw [execute_tools_high rag _ hI]
    have h := handle_stage_mono (classify_intent_node (ingest_input u (some s)))
    simpa using h
  · rw [execute_tools_greet rag _ hI]
    simp
  · rw [execute_tools_inquiry rag _ hI]
    simp

/-- The transcript produced by one turn: the previous transcript, then the
user utterance, then the agent response (when it is set and non-empty,
Python truthiness). -/
theorem run_turn_hist (rag : String → String) (u : String)
    (ex : Option WorkflowState) :
    (run_turn rag u ex).1.conversation_history =
      (match ex with | some s => s.conversation_history | none => []) ++
        HistEntry.user u ::
          (match (run_turn rag u ex).1.response with
           | some r =>
             if r = "" then []
             else [HistEntry.agent r (run_turn rag u ex).1.intent
               (run_turn rag u ex).1.qualification_stage]
           | none => []) := by
  show (append_agent_response _).conversation_history = _
  rw [append_agent_response_hist]
  have hresp : (run_turn rag u ex).1.response =
      (generate_response_node
        (execute_tools_node rag (classify_intent_node (ingest_input u ex))).1).response :=
    run_turn_response rag u ex
  have hint : (run_turn rag u ex).1.intent =
      (generate_response_node
        (execute_tools_node rag (classify_intent_node (ingest_input u ex))).1).intent := by
    simp [run_turn]
  have hstg : (run_turn rag u ex).1.qualification_stage =
      (generate_response_node
        (execute_tools_node rag (classify_intent_node (ingest_input u ex))).1).qualification_stage := by
    simp [run_turn]
  rw [hresp, hint, hstg]
  simp only [generate_response_node_hist, execute_tools_node_hist,
    classify_intent_node_hist]
  cases ex with
  | some s => simp [ingest_input]
  | none => simp [ingest_input]

/-- One turn on a completed HIGH_INTENT state: the stored confirmation is
re-emitted, nothing else about the lead changes and no capture happens. -/
theorem run_turn_completed (rag : String → String) (u : String)
    (s : WorkflowState) (hst : s.qualification_stage = "completed")
    (hin : s.intent = some "HIGH_INTENT") :
    (run_turn rag u (some s)).1.response =
        some ("Thanks " ++ pyShow s.name ++
          "! I've captured your information. Our team will be in touch soon!") ∧
      (run_turn rag u (some s)).2 = [] ∧
      (run_turn rag u (some s)).1.qualification_stage = "completed" ∧
      (run_turn rag u (some s)).1.intent = some "HIGH_INTENT" ∧
      (run_turn rag u (some s)).1.name = s.name := by
  have hsticky : classify_intent_node (ingest_input u (some s)) =
      ingest_input u (some s) :=
    classify_intent_node_sticky _ (by simp [hst]) (by simp [hin])
  have hex : execute_tools_node rag (classify_intent_node (ingest_input u (some s))) =
      handle_lead_qualification (ingest_input u (some s)) := by
    rw [hsticky]
    exact execute_tools_high rag _ (by simp [hin])
  have hh := handle_completed (ingest_input u (some s)) (by simp [hst])
  have hfrozen : generate_response_node
      (execute_tools_node rag (classify_intent_node (ingest_input u (some s)))).1 =
      (execute_tools_node rag (classify_intent_node (ingest_input u (some s)))).1 := by
    rw [hex, hh]
    exact generate_response_node_freeze _ (by simp [hin]) (by simp [hst])
  refine ⟨?_, ?_, ?_, ?_, ?_⟩
  · rw [run_turn_response, hfrozen, hex, hh]
    simp
  · rw [run_turn_caps, hex, hh]
  · rw [run_turn_stage, hex, hh]
    simp [hst]
  · rw [run_turn_intent, hsticky]
    simp [hin]
  · rw [run_turn_name, hex, hh]
    simp

/-- The embedded score agrees with the amended claim formula everywhere. -/
theorem calculate_relevance_eq_amended (q mk : String) (sk : Option String)
    (v : JVal) : calculate_relevance q mk sk v = claim_score_amended q mk sk v := by
  unfold calculate_relevance claim_score_amended
  rcases sk with _ | sk0
  · rfl
  · by_cases hsk : sk0 = "" <;> simp [hsk]

theorem run_turn_eq (rag : String → String) (u : String)
    (ex : Option WorkflowState) :
    run_turn rag u ex =
      (append_agent_response (generate_response_node
        (execute_tools_node rag (classify_intent_node (ingest_input u ex))).1),
       (execute_tools_node rag (classify_intent_node (ingest_input u ex))).2) := rfl

/-- A turn that dispatches to the qualification flow never consults the
knowledge-base collaborator. -/
theorem run_turn_rag_irrel (rag rag2 : String → String) (u : String)
    (ex : Option WorkflowState)
    (h : (classify_intent_node (ingest_input u ex)).intent = some "HIGH_INTENT") :
    run_turn rag u ex = run_turn rag2 u ex := by
  rw [run_turn_eq rag, run_turn_eq rag2, execute_tools_high rag _ h,
    execute_tools_high rag2 _ h]

/-! ## The claims -/

/-- C1.  Running the turn sequence `["I want to try", "John",
"john@example.com", "YouTube"]` against a fresh state (for every
knowledge-base collaborator) ends with stage `completed`, lead
`name = "John"`, `email = "john@example.com"`, `platform = "Youtube"`, and the
capture callback invoked exactly once, with exactly those three strings. -/
theorem claim_c1 (rag : String → String) :
    (runConv rag c1Turns).1.map
        (fun s => (s.qualification_stage, s.name, s.email, s.platform)) =
      some ("completed", some "John", some "john@example.com", some "Youtube") ∧
    (runConv rag c1Turns).2 =
      [(some "John", some "john@example.com", some "Youtube")] := by
  have h1 := run_turn_rag_irrel rag rag0 "I want to try" none (by decide)
  have h2 := run_turn_rag_irrel rag rag0 "John"
    (some (run_turn rag0 "I want to try" none).1) (by decide)
  have h3 := run_turn_rag_irrel rag rag0 "john@example.com"
    (some (run_turn rag0 "John" (some (run_turn rag0 "I want to try" none).1)).1)
    (by decide)
  have h4 := run_turn_rag_irrel rag rag0 "YouTube"
    (some (run_turn rag0 "john@example.com"
      (some (run_turn rag0 "John"
        (some (run_turn rag0 "I want to try" none).1)).1)).1)
    (by decide)
  have hconv : runConv rag c1Turns = runConv rag0 c1Turns := by
    simp only [runConv, c1Turns, List.foldl_cons, List.foldl_nil]
    rw [h1, h2, h3, h4]
  exact ⟨by rw [hconv]; decide, by rw [hconv]; decide⟩

/-- C2.  On every reachable turn state with stage `completed`, running a turn
(and then another with the same utterance) re-emits the stored confirmation
message both times and never invokes the capture callback. -/
theorem claim_c2 (rag : String → String) (u : String) (s : WorkflowState)
    (hreach : Reachable s) (hstage : s.qualification_stage = "completed") :
    (run_turn rag u (some s)).1.response =
        some ("Thanks " ++ pyShow s.name ++
          "! I've captured your information. Our team will be in touch soon!") ∧
      (run_turn rag u (some ((run_turn rag u (some s)).1))).1.response =
        (run_turn rag u (some s)).1.response ∧
      (run_turn rag u (some s)).2 = [] ∧
      (run_turn rag u (some ((run_turn rag u (some s)).1))).2 = [] := by
  have hin : s.intent = some "HIGH_INTENT" :=
    (reachable_turnInv s hreach).2.1 (by simp [hstage])
  obtain ⟨hr1, hc1, hst1, hin1, hnm1⟩ := run_turn_completed rag u s hstage hin
  obtain ⟨hr2, hc2, _, _, _⟩ :=
    run_turn_completed rag u ((run_turn rag u (some s)).1) hst1 hin1
  refine ⟨hr1, ?_, hc1, hc2⟩
  rw [hr2, hr1, hnm1]

theorem claim_c2_witness :
    s4c.qualification_stage = "completed" ∧
    (run_turn rag0 "ping" (some s4c)).1.response =
      some ("Thanks " ++ pyShow s4c.name ++
        "! I've captured your information. Our team will be in touch soon!") ∧
    (run_turn rag0 "ping" (some s4c)).2 = [] := by
  have hreach : Reachable s4c :=
    Reachable.step rag0 "YouTube" s3c
      (Reachable.step rag0 "john@example.com" s2c
        (Reachable.step rag0 "John" s1c
          (Reachable.base rag0 "I want to try")))
  exact ⟨by decide, (claim_c2 rag0 "ping" s4c hreach (by decide)).1,
    (claim_c2 rag0 "ping" s4c hreach (by decide)).2.2.1⟩

/-- C3.  An utterance (outside the exact-match short-circuit list) matching
both a HIGH_INTENT pattern and a GREET pattern classifies as HIGH_INTENT:
the HIGH_INTENT group is tested first and wins. -/
theorem claim_c3 (text : String)
    (hex : special_inquiry.contains (pyLower text) = false)
    (hhigh : high_intent_patterns.any (fun p => p.found (pyLower text)) = true)
    (_hgreet : greet_patterns.any (fun p => p.found (pyLower text)) = true) :
    classify_intent text = IntentType.HIGH_INTENT := by
  simp at hex
  simp [classify_intent, hex, hhigh]

theorem claim_c3_witness :
    special_inquiry.contains (pyLower "hi i want to try") = false ∧
    high_intent_patterns.any (fun p => p.found (pyLower "hi i want to try")) = true ∧
    greet_patterns.any (fun p => p.found (pyLower "hi i want to try")) = true ∧
    classify_intent "hi i want to try" = IntentType.HIGH_INTENT :=
  ⟨by decide, by decide, by decide,
    claim_c3 "hi i want to try" (by decide) (by decide) (by decide)⟩

/-- C4.  Across every sequence of turns threading the same state, the stage
never regresses in the order
initial < asking_name < asking_email < asking_platform < completed. -/
theorem claim_c4 (rag : String → String) (us : List String) (s : WorkflowState) :
    stageIdx s.qualification_stage ≤
      stageIdx
        (us.foldl (fun t u => (run_turn rag u (some t)).1) s).qualification_stage := by
  induction us generalizing s with
  | nil => exact le_refl _
  | cons u rest ih =>
    exact le_trans (run_turn_stage_mono rag u s) (ih ((run_turn rag u (some s)).1))

/-- C5.  A turn whose incoming state has stage ≠ initial and intent
HIGH_INTENT never reclassifies: the intent is still HIGH_INTENT afterwards,
whatever the utterance. -/
theorem claim_c5 (rag : String → String) (u : String) (s : WorkflowState)
    (h1 : s.qualification_stage ≠ "initial")
    (h2 : s.intent = some "HIGH_INTENT") :
    (run_turn rag u (some s)).1.intent = some "HIGH_INTENT" := by
  rw [run_turn_intent,
    classify_intent_node_sticky _ (by simpa using h1) (by simpa using h2)]
  simpa using h2

theorem claim_c5_witness :
    s1c.qualification_stage ≠ "initial" ∧ s1c.intent = some "HIGH_INTENT" ∧
    (run_turn rag0 "hello pricing" (some s1c)).1.intent = some "HIGH_INTENT" :=
  ⟨by decide, by decide,
    claim_c5 rag0 "hello pricing" s1c (by decide) (by decide)⟩

/-- C8.  Every turn appends the user utterance before processing and the
agent response (when set and non-empty) after processing; the previous
transcript is a prefix of the new one — nothing is removed or altered. -/
theorem claim_c8 (rag : String → String) (u : String)
    (ex : Option WorkflowState) :
    ((run_turn rag u ex).1.conversation_history =
      (match ex with | some s => s.conversation_history | none => []) ++
        HistEntry.user u ::
          (match (run_turn rag u ex).1.response with
           | some r =>
             if r = "" then []
             else [HistEntry.agent r (run_turn rag u ex).1.intent
               (run_turn rag u ex).1.qualification_stage]
           | none => [])) ∧
    (match ex with | some s => s.conversation_history | none => []) <+:
      (run_turn rag u ex).1.conversation_history := by
  refine ⟨run_turn_hist rag u ex, ?_⟩
  rw [run_turn_hist rag u ex]
  exact ⟨_, rfl⟩

/-- C10.  In every reachable state: stage asking_email implies the name is
stored; asking_platform implies name and email; completed implies name,
email and platform (so the completed confirmation never reads an absent
name). -/
theorem claim_c10 (s : WorkflowState) (h : Reachable s) :
    (s.qualification_stage = "asking_email" → s.name.isSome) ∧
    (s.qualification_stage = "asking_platform" → s.name.isSome ∧ s.email.isSome) ∧
    (s.qualification_stage = "completed" →
      s.name.isSome ∧ s.email.isSome ∧ s.platform.isSome) := by
  obtain ⟨_, _, hn, he, hp⟩ := reachable_turnInv s h
  exact ⟨fun hst => hn (Or.inl hst),
    fun hst => ⟨hn (Or.inr (Or.inl hst)), he (Or.inl hst)⟩,
    fun hst => ⟨hn (Or.inr (Or.inr hst)), he (Or.inr hst), hp hst⟩⟩

theorem claim_c10_witness :
    s3c.qualification_stage = "asking_platform" ∧
    (s3c.name.isSome ∧ s3c.email.isSome) := by
  have hreach : Reachable s3c :=
    Reachable.step rag0 "john@example.com" s2c
      (Reachable.step rag0 "John" s1c (Reachable.base rag0 "I want to try"))
  exact ⟨by decide, (claim_c10 s3c hreach).2.1 (by decide)⟩

/-- C6.  For every query, knowledge tree and limit, retrieval returns at
most `limit` entries, sorted by score descending, containing only entries
that pass the relevance gate (with their provenance in the tree), and ties
keep encounter order (the returned entries of any fixed score are a prefix
of the gated entries of that score in scan order).  The result is an
ordinary list — an empty result is a value, not an error. -/
theorem claim_c6 (query : String) (data : List (String × JVal)) (limit : Nat) :
    (retrieve_relevant_info query data limit).length ≤ limit ∧
    List.Pairwise scoreGE (retrieve_relevant_info query data limit) ∧
    (∀ e ∈ retrieve_relevant_info query data limit,
      ∃ mk sk v, LeafAt data mk sk v ∧
        is_relevant_to_query (pyLower query) mk sk v = true ∧
        e = mkEntry (pyLower query) mk sk v) ∧
    (∀ s : ℚ,
      (retrieve_relevant_info query data limit).filter
          (fun e => decide (e.relevance_score = s)) <+:
        (relevant_items (pyLower query) data).filter
          (fun e => decide (e.relevance_score = s))) := by
  refine ⟨?_, ?_, ?_, ?_⟩
  · exact List.length_take_le _ _
  · exact List.Pairwise.sublist (List.take_sublist _ _)
      (List.sorted_insertionSort scoreGE _)
  · intro e he
    have h1 : e ∈ (relevant_items (pyLower query) data).insertionSort scoreGE :=
      List.mem_of_mem_take he
    have h2 : e ∈ relevant_items (pyLower query) data :=
      (List.perm_insertionSort scoreGE _).subset h1
    exact mem_relevant_items h2
  · intro sc
    have hp : retrieve_relevant_info query data limit <+:
        (relevant_items (pyLower query) data).insertionSort scoreGE :=
      List.take_prefix _ _
    have h := isPrefix_filter (fun e => decide (e.relevance_score = sc)) hp
    rwa [filter_insertionSort_score] at h

theorem claim_c6_witness :
    (retrieve_relevant_info "Tell me about Pro plan" demoTree 5).length ≤ 5 ∧
    KEntry.mk "pricing.Pro" 1 ∈
      retrieve_relevant_info "Tell me about Pro plan" demoTree 5 ∧
    (∃ mk sk v, LeafAt demoTree mk sk v ∧
      is_relevant_to_query (pyLower "Tell me about Pro plan") mk sk v = true ∧
      KEntry.mk "pricing.Pro" 1 = mkEntry (pyLower "Tell me about Pro plan") mk sk v) :=
  ⟨(claim_c6 "Tell me about Pro plan" demoTree 5).1, by decide,
    (claim_c6 "Tell me about Pro plan" demoTree 5).2.2.1 _ (by decide)⟩

/-- C7 counterexample.  The claim's formula fails on the code: for the
whitespace query `" "` and sub-key `" "`, the entry is gated (the sub-key
occurs verbatim in the query) and is returned with score `0` — the source
returns `0.0` whenever the query has no whitespace-delimited tokens — while
the claim's clamped sum says `0.8`. -/
theorem claim_c7_counterexample :
    is_relevant_to_query " " "pricing" (some " ") (JVal.str "x") = true ∧
    retrieve_relevant_info " " cexTree 5 = [⟨"pricing. ", 0⟩] ∧
    claim_score " " "pricing" (some " ") (JVal.str "x") = 0.8 ∧
    calculate_relevance " " "pricing" (some " ") (JVal.str "x") ≠
      claim_score " " "pricing" (some " ") (JVal.str "x") :=
  ⟨by decide, by decide, by decide, by decide⟩

/-- C7 (amended).  Every returned entry is gated and its score equals the
claim's clamped sum amended with the source's two guards (a token-free query
scores 0, an empty sub-key contributes nothing; tokens are the distinct
query tokens), and every returned score lies in [0, 1]. -/
theorem claim_c7 (query : String) (data : List (String × JVal)) (limit : Nat)
    (e : KEntry) (he : e ∈ retrieve_relevant_info query data limit) :
    0 ≤ e.relevance_score ∧ e.relevance_score ≤ 1 ∧
    ∃ mk sk v, LeafAt data mk sk v ∧
      is_relevant_to_query (pyLower query) mk sk v = true ∧
      e.relevance_score = claim_score_amended (pyLower query) mk sk v := by
  have h1 : e ∈ (relevant_items (pyLower query) data).insertionSort scoreGE :=
    List.mem_of_mem_take he
  have h2 : e ∈ relevant_items (pyLower query) data :=
    (List.perm_insertionSort scoreGE _).subset h1
  obtain ⟨mk, sk, v, hleaf, hgate, hent⟩ := mem_relevant_items h2
  have hscore : e.relevance_score = calculate_relevance (pyLower query) mk sk v := by
    rw [hent]
    rfl
  refine ⟨?_, ?_, mk, sk, v, hleaf, hgate, ?_⟩
  · rw [hscore]; exact calculate_relevance_nonneg _ _ _ _
  · rw [hscore]; exact calculate_relevance_le_one _ _ _ _
  · rw [hscore]; exact calculate_relevance_eq_amended _ _ _ _

theorem claim_c7_witness :
    KEntry.mk "pricing.Basic" 0 ∈
      retrieve_relevant_info "Tell me about Pro plan" demoTree 5 ∧
    (0 ≤ (KEntry.mk "pricing.Basic" 0).relevance_score ∧
      (KEntry.mk "pricing.Basic" 0).relevance_score ≤ 1 ∧
      ∃ mk sk v, LeafAt demoTree mk sk v ∧
        is_relevant_to_query (pyLower "Tell me about Pro plan") mk sk v = true ∧
        (KEntry.mk "pricing.Basic" 0).relevance_score =
          claim_score_amended (pyLower "Tell me about Pro plan") mk sk v) :=
  ⟨by decide, claim_c7 "Tell me about Pro plan" demoTree 5 _ (by decide)⟩

/-- C9.  `extract_entities` computes its four tags by independent keyword
membership tests on the lowercased text: each key's value is a function of
that key's trigger keywords alone, and a key is present exactly when one of
its triggers occurs. -/
theorem claim_c9 (text : String) :
    ((extract_entities text).topic =
      if strContains (pyLower text) "price" || strContains (pyLower text) "pricing" ||
          strContains (pyLower text) "cost" then some "pricing" else none) ∧
    ((extract_entities text).plan =
      if strContains (pyLower text) "basic" then some "basic"
      else if strContains (pyLower text) "pro" then some "pro" else none) ∧
    ((extract_entities text).feature =
      if strContains (pyLower text) "video" then some "video"
      else if strContains (pyLower text) "resolution" then some "resolution"
      else if strContains (pyLower text) "captions" then some "captions" else none) ∧
    ((extract_entities text).action =
      if strContains (pyLower text) "buy" || strContains (pyLower text) "purchase" ||
          strContains (pyLower text) "order" then some "purchase"
      else if strContains (pyLower text) "try" || strContains (pyLower text) "trial" ||
          strContains (pyLower text) "start" then some "trial" else none) ∧
    ((extract_entities text).topic.isSome =
      (strContains (pyLower text) "price" || strContains (pyLower text) "pricing" ||
        strContains (pyLower text) "cost")) ∧
    ((extract_entities text).plan.isSome =
      (strContains (pyLower text) "basic" || strContains (pyLower text) "pro")) ∧
    ((extract_entities text).feature.isSome =
      (strContains (pyLower text) "video" || strContains (pyLower text) "resolution" ||
        strContains (pyLower text) "captions")) ∧
    ((extract_entities text).action.isSome =
      (strContains (pyLower text) "buy" || strContains (pyLower text) "purchase" ||
        strContains (pyLower text) "order" || strContains (pyLower text) "try" ||
        strContains (pyLower text) "trial" || strContains (pyLower text) "start")) := by
  refine ⟨?_, ?_, ?_, ?_, ?_, ?_, ?_, ?_⟩ <;>
    simp only [extract_entities, List.any_cons, List.any_nil, Bool.or_false,
      Bool.or_assoc] <;>
    (repeat' split) <;>
    (simp_all
     <;> tauto)

end AutoStream
